import Mathlib

/-!
Shallow embedding of the video-content-analyzer pipeline.

The embedding models:
- JSON values and JS property lookup / truthiness (for the GPT response
  validation in `src/services/gpt.js`);
- the GPT service object with its mutable configuration
  (`model`, `maxTokens`, `temperature`) and the temperature-override path
  `generateAlternativeAnalysis`;
- the video downloader `downloadVideo` (`src/services/downloader.js`);
- the Supabase upload `uploadToSupabase` and the session coordinator
  `analyzeVideo` with its cleanup (`VideoController`).

External effects (subprocess exit, directory listing, remote API replies,
filesystem faults, the clock) are supplied as explicit environment records;
the filesystem is a list of file paths, and a stage that fails creates no
file (stages are treated as atomic with respect to their temp artifact).
-/

/-- JSON values as produced by `JSON.parse`. -/
inductive JsValue where
  | str (s : String)
  | num (n : Int)
  | bool (b : Bool)
  | null
  | obj (fields : List (String × JsValue))
  | arr (elems : List JsValue)

/-- A parsed JSON object: an association list of fields. -/
def JsObj := List (String × JsValue)

/-- JS property access `o[f]`: `none` models `undefined`. -/
def getField : JsObj → String → Option JsValue
  | [], _ => none
  | (k, v) :: rest, f => if k = f then some v else getField rest f

/-- Whitespace stripping on both ends of a character list. -/
def trimChars (l : List Char) : List Char :=
  (((l.dropWhile Char.isWhitespace).reverse).dropWhile Char.isWhitespace).reverse

/-- JS `String.prototype.trim`. -/
def jsTrim (s : String) : String := String.mk (trimChars s.data)

/-- JS `String.prototype.startsWith`. -/
def jsStartsWith (s p : String) : Bool := List.isPrefixOf p.data s.data

/- ===== src/services/gpt.js ===== -/

/-- `validateAnalysisResponse`'s per-field check (gpt.js lines 129-136).
The JS test `!analysis[field] || typeof analysis[field] !== 'string'`
rejects a missing field, any non-string value, and the empty string
(the only falsy string); a string passing it is then rejected when
`analysis[field].trim().length === 0`. -/
def validateField (analysis : JsObj) (field : String) : Except String Unit :=
  match getField analysis field with
  | some (JsValue.str s) =>
    if s = "" then
      Except.error ("Invalid analysis response: missing or invalid '" ++ field ++ "' field")
    else if (jsTrim s).length = 0 then
      Except.error ("Invalid analysis response: '" ++ field ++ "' field is empty")
    else
      Except.ok ()
  | _ => Except.error ("Invalid analysis response: missing or invalid '" ++ field ++ "' field")

/-- gpt.js line 127: `const requiredFields = ['hook', 'cta', 'usp']`. -/
def requiredFields : List String := ["hook", "cta", "usp"]

/-- The `for (const field of requiredFields)` loop: first failure throws. -/
def validateLoop : List String → JsObj → Except String Unit
  | [], _ => Except.ok ()
  | f :: rest, a =>
    match validateField a f with
    | Except.error e => Except.error e
    | Except.ok () => validateLoop rest a

/-- gpt.js `validateAnalysisResponse` (lines 126-144). -/
def validateAnalysisResponse (analysis : JsObj) : Except String Unit :=
  validateLoop requiredFields analysis

/-- gpt.js `analyzeContent` (lines 18-85), parameterised by the combined
outcome of the remote chat call and `JSON.parse` of its content: on a
parsed object it validates and returns the full object unchanged; any
earlier failure propagates (the catch block only logs and rethrows). -/
def analyzeContent (parsedResponse : Except String JsObj) : Except String JsObj :=
  match parsedResponse with
  | Except.error e => Except.error e
  | Except.ok analysis =>
    match validateAnalysisResponse analysis with
    | Except.error e => Except.error e
    | Except.ok () => Except.ok analysis

/-- Specification-side reading of a valid field: present, a string, and
non-empty after trimming. -/
def goodField (o : JsObj) (f : String) : Prop :=
  ∃ s, getField o f = some (JsValue.str s) ∧ (jsTrim s).length ≠ 0

/-- The GPT service's mutable configuration (gpt.js constructor, lines 7-11). -/
structure GPTService where
  model : String
  maxTokens : Nat
  temperature : Rat

/-- The configuration actually sent on one chat-completions call
(gpt.js lines 34-49). -/
structure ChatRequest where
  model : String
  maxTokens : Nat
  temperature : Rat

/-- `analyzeContent` as a method: reads the instance configuration to build
the request, consults the remote oracle, and leaves the instance unchanged
(the method body never assigns to `this`). Returns the result, the
post-call service state, and the request that was issued. -/
def analyzeContentSvc (svc : GPTService) (oracle : ChatRequest → Except String JsObj) :
    Except String JsObj × GPTService × ChatRequest :=
  let req : ChatRequest := ⟨svc.model, svc.maxTokens, svc.temperature⟩
  (analyzeContent (oracle req), svc, req)

/-- gpt.js `generateAlternativeAnalysis` (lines 152-164): saves
`this.temperature`, overwrites it with the override, calls
`analyzeContent`, and restores the saved value in a `finally` block, so
restoration happens whether the call returned or threw. -/
def generateAlternativeAnalysis (svc : GPTService)
    (oracle : ChatRequest → Except String JsObj) (temperature : Rat) :
    Except String JsObj × GPTService × ChatRequest :=
  let originalTemp := svc.temperature
  let svc1 : GPTService := { svc with temperature := temperature }
  let (result, svc2, req) := analyzeContentSvc svc1 oracle
  (result, { svc2 with temperature := originalTemp }, req)

/- ===== src/services/downloader.js ===== -/

/-- External world seen by one `downloadVideo` call: the outcome of the
`yt-dlp` subprocess and the temp-directory listing read afterwards. -/
structure DlEnv where
  execResult : Except String Unit
  dirFiles : List String

/-- downloader.js `downloadVideo` (lines 43-82), with the generated uuid
`videoId` passed in. Records the argument vector handed to
`yt-dlp.execPromise`; on subprocess success it scans the directory listing
for the first file whose name starts with `videoId` (`files.find`), throws
`Downloaded file not found` when there is none, and the enclosing catch
wraps every failure message with `Failed to download video: `. -/
def downloadVideo (tempDir videoId url : String) (env : DlEnv) :
    Except String String × List String :=
  let outputTemplate := tempDir ++ "/" ++ videoId ++ ".%(ext)s"
  let args := [url, "--output", outputTemplate,
               "--format", "best[ext=mp4]/best", "--no-playlist"]
  match env.execResult with
  | Except.error e => (Except.error ("Failed to download video: " ++ e), args)
  | Except.ok _ =>
    match env.dirFiles.find? (fun f => jsStartsWith f videoId) with
    | none => (Except.error "Failed to download video: Downloaded file not found", args)
    | some f => (Except.ok (tempDir ++ "/" ++ f), args)

/- ===== filesystem and per-file cleanup ===== -/

/-- The local filesystem as the list of existing file paths. -/
def Fs := List String

/-- `fs.remove(path)`: may fail (e.g. permissions); on success the file of
that name is gone. -/
def fsRemove (fs : Fs) (path : String) (fails : Bool) : Except String Fs :=
  if fails then Except.error "remove failed" else Except.ok (List.erase fs path)

/-- downloader.js `cleanup` (lines 172-181) and the identical
transcriber.js `cleanup` (lines 131-140):
`try { if (pathExists) remove } catch { log }` — a removal failure is
caught and logged, never rethrown, so this function is total. -/
def serviceCleanup (fs : Fs) (path : String) (removeFails : Bool) : Fs :=
  if List.contains fs path then
    match fsRemove fs path removeFails with
    | Except.ok fs1 => fs1
    | Except.error _ => fs
  else fs

/- ===== the session coordinator (src/unnamed/part_001, VideoController) ===== -/

/-- The final result envelope built at part_001 lines 100-113.
`processingTime` is the elapsed-milliseconds number rendered as
`{processingTime}ms` on the wire; `timestamp` strings are elided. -/
structure FinalResult where
  sessionId : String
  success : Bool
  processingTime : Nat
  videoUrl : String
  transcript : String
  analysis : JsObj
  originalUrl : String
  steps : List String

/-- The error envelope built at part_001 lines 130-136 (`success` is the
constant `false` there and is omitted; `timestamp` elided). -/
structure ErrorResponse where
  sessionId : String
  error : String
  processingTime : Nat

/-- Payload attached to a progress event's `data` field. -/
inductive ProgressData where
  | json (v : JsValue)
  | result (r : FinalResult)
  | errInfo (e : ErrorResponse)

/-- One write to the session's SSE stream: either a `sendProgress` frame
(part_001 lines 46-56; the constant `sessionId`/`timestamp` fields are
elided) or one of the two terminal frames (lines 118 and 139). -/
inductive Event where
  | progress (step : String) (message : String) (data : Option ProgressData)
  | terminalFinal (result : FinalResult)
  | terminalError (err : ErrorResponse)

/-- Whether an event is a terminal (`final` or `error`) frame. -/
def isTerminal : Event → Bool
  | Event.progress _ _ _ => false
  | Event.terminalFinal _ => true
  | Event.terminalError _ => true

/-- `sendProgress('validation', ...)`, part_001 line 69. -/
def evValidation (url : String) : Event :=
  Event.progress "validation" "Validating video URL"
    (some (ProgressData.json (JsValue.obj [("url", JsValue.str url)])))

/-- part_001 line 72. -/
def evDownloadStart : Event :=
  Event.progress "download" "Starting video download..." none

/-- part_001 line 74. -/
def evDownloadDone (p : String) : Event :=
  Event.progress "download" "Video downloaded successfully"
    (some (ProgressData.json (JsValue.obj [("path", JsValue.str p)])))

/-- part_001 line 77. -/
def evUploadStart : Event :=
  Event.progress "upload" "Uploading video to Supabase storage..." none

/-- part_001 line 79. -/
def evUploadDone (u : String) : Event :=
  Event.progress "upload" "Video uploaded to Supabase"
    (some (ProgressData.json (JsValue.obj [("url", JsValue.str u)])))

/-- part_001 line 82. -/
def evExtractStart : Event :=
  Event.progress "extraction" "Extracting audio from video..." none

/-- part_001 line 84. -/
def evExtractDone (p : String) : Event :=
  Event.progress "extraction" "Audio extracted successfully"
    (some (ProgressData.json (JsValue.obj [("path", JsValue.str p)])))

/-- part_001 line 87. -/
def evTranscribeStart : Event :=
  Event.progress "transcription" "Transcribing audio with OpenAI Whisper..." none

/-- part_001 lines 89-92: summary carries the transcript length and a
100-character preview. -/
def evTranscribeDone (t : String) : Event :=
  Event.progress "transcription" "Audio transcribed successfully"
    (some (ProgressData.json (JsValue.obj
      [("length", JsValue.num (Int.ofNat t.length)),
       ("preview", JsValue.str (String.mk (t.data.take 100) ++ "..."))])))

/-- part_001 line 95. -/
def evAnalysisStart : Event :=
  Event.progress "analysis" "Analyzing content with GPT-4..." none

/-- part_001 line 97: the analysis object itself is the payload. -/
def evAnalysisDone (a : JsObj) : Event :=
  Event.progress "analysis" "Content analysis completed"
    (some (ProgressData.json (JsValue.obj a)))

/-- part_001 line 115. -/
def evComplete (r : FinalResult) : Event :=
  Event.progress "complete" "Video analysis completed successfully"
    (some (ProgressData.result r))

/-- part_001 line 138: the error progress frame carrying the failure
message and elapsed time. -/
def evError (e : ErrorResponse) : Event :=
  Event.progress "error" "Analysis failed" (some (ProgressData.errInfo e))

/-- Outcomes of the five awaited stage operations and the clock, as seen
by one session. A stage that succeeds yields its value (for download and
extraction, the path of the temp file it created); a failing stage yields
its error message and creates no file. -/
structure Env where
  download : Except String String
  upload : Except String String
  extract : Except String String
  transcribe : Except String String
  analyze : Except String JsObj
  elapsed : Nat

/-- State left by the `try` block of `analyzeVideo` (part_001 lines
62-125): the progress events written inside it, the filesystem, the
`videoPath`/`audioPath` variables (null until their producing stage
succeeds), and either the assembled final result or the thrown error. -/
structure TryOut where
  events : List Event
  fs : Fs
  videoPath : Option String
  audioPath : Option String
  outcome : Except String FinalResult

/-- JS falsiness of the `url` request field: absent or the empty string. -/
def jsFalsyStr : Option String → Bool
  | none => true
  | some s => s = ""

/-- The `try` block of `analyzeVideo`, part_001 lines 62-125, stage by
stage in source order; each `match` is the `await` of that stage, and a
`throw` exits with the events emitted so far and the paths recorded so
far. -/
def tryPhase (sessionId : String) (url : Option String) (env : Env) (fs0 : Fs) : TryOut :=
  if jsFalsyStr url then
    ⟨[], fs0, none, none, Except.error "Video URL is required"⟩
  else
    let u := url.getD ""
    let e1 := [evValidation u, evDownloadStart]
    match env.download with
    | Except.error msg => ⟨e1, fs0, none, none, Except.error msg⟩
    | Except.ok vPath =>
      let fs1 := vPath :: fs0
      let e2 := e1 ++ [evDownloadDone vPath, evUploadStart]
      match env.upload with
      | Except.error msg => ⟨e2, fs1, some vPath, none, Except.error msg⟩
      | Except.ok pubUrl =>
        let e3 := e2 ++ [evUploadDone pubUrl, evExtractStart]
        match env.extract with
        | Except.error msg => ⟨e3, fs1, some vPath, none, Except.error msg⟩
        | Except.ok aPath =>
          let fs2 := aPath :: fs1
          let e4 := e3 ++ [evExtractDone aPath, evTranscribeStart]
          match env.transcribe with
          | Except.error msg => ⟨e4, fs2, some vPath, some aPath, Except.error msg⟩
          | Except.ok transcript =>
            let e5 := e4 ++ [evTranscribeDone transcript, evAnalysisStart]
            match env.analyze with
            | Except.error msg => ⟨e5, fs2, some vPath, some aPath, Except.error msg⟩
            | Except.ok analysis =>
              let result : FinalResult :=
                { sessionId := sessionId, success := true,
                  processingTime := env.elapsed, videoUrl := pubUrl,
                  transcript := transcript, analysis := analysis,
                  originalUrl := u,
                  steps := ["download", "upload", "extraction",
                            "transcription", "analysis"] }
              let e6 := e5 ++ [evAnalysisDone analysis, evComplete result]
              ⟨e6, fs2, some vPath, some aPath, Except.ok result⟩

/-- One guarded call of the controller's `cleanup` body (part_001 lines
211-217): `if (path) await service.cleanup(path)`. Returns the new
filesystem and the list of paths whose deletion was attempted. The
service-level cleanups never throw (they catch internally), so the outer
`try/catch` of `cleanup` is unreachable and the composition is total. -/
def cleanupFile (fs : Fs) (path : Option String) (removeFails : Bool) : Fs × List String :=
  match path with
  | none => (fs, [])
  | some p => (serviceCleanup fs p removeFails, [p])

/-- What one full `analyzeVideo` session leaves behind: the ordered list
of stream writes, the final filesystem, and the deletion attempts made by
cleanup. -/
structure RunOut where
  events : List Event
  fs : Fs
  attempted : List String

/-- part_001 `analyzeVideo` (lines 27-146): runs the `try` block, then on
success writes the terminal `final` frame (line 118) and on failure the
`error` progress frame and the terminal `error` frame (lines 138-139),
then in `finally` runs cleanup over the recorded `videoPath` and
`audioPath` (line 144). `rvFails`/`raFails` are the filesystem faults the
two removal attempts may hit. -/
def analyzeVideo (sessionId : String) (url : Option String) (env : Env)
    (fs0 : Fs) (rvFails raFails : Bool) : RunOut :=
  let t := tryPhase sessionId url env fs0
  let events :=
    match t.outcome with
    | Except.ok result => t.events ++ [Event.terminalFinal result]
    | Except.error msg =>
      let er : ErrorResponse := ⟨sessionId, msg, env.elapsed⟩
      t.events ++ [evError er, Event.terminalError er]
  let (fs1, att1) := cleanupFile t.fs t.videoPath rvFails
  let (fs2, att2) := cleanupFile fs1 t.audioPath raFails
  ⟨events, fs2, att1 ++ att2⟩

/- ===== uploadToSupabase (part_001 lines 154-199) ===== -/

/-- External world of one upload: the `fs.readFile` outcome (file bytes),
the remote rejection if any, `Date.now()`, and the store's public-URL
scheme for an object name. -/
structure UpEnv where
  fileData : Except String (List Nat)
  uploadError : Option String
  now : Nat
  publicUrlOf : String → String

/-- The storage call issued at part_001 lines 169-174. -/
structure UploadCall where
  bucket : String
  fileName : String
  contents : List Nat
  contentType : String
  upsert : Bool

/-- part_001 `uploadToSupabase`: reads the whole file, derives
`{sessionId}_{Date.now()}.mp4`, uploads with `contentType: 'video/mp4'`
and `upsert: false`, throws `Supabase upload failed: ...` on a remote
error, and returns the object's public URL on success. Also returns the
storage call made, `none` when the read already failed. -/
def uploadToSupabase (bucketName sessionId videoPath : String) (env : UpEnv) :
    Except String String × Option UploadCall :=
  match env.fileData with
  | Except.error e => (Except.error e, none)
  | Except.ok videoBuffer =>
    let fileName := sessionId ++ "_" ++ toString env.now ++ ".mp4"
    let call : UploadCall :=
      { bucket := bucketName, fileName := fileName, contents := videoBuffer,
        contentType := "video/mp4", upsert := false }
    match env.uploadError with
    | some msg => (Except.error ("Supabase upload failed: " ++ msg), some call)
    | none => (Except.ok (env.publicUrlOf fileName), some call)

/-- The result envelope assembled at part_001 lines 100-113 on full success. -/
def successResult (sid u pub t : String) (an : JsObj) (elapsed : Nat) : FinalResult :=
  { sessionId := sid, success := true, processingTime := elapsed,
    videoUrl := pub, transcript := t, analysis := an, originalUrl := u,
    steps := ["download", "upload", "extraction", "transcription", "analysis"] }

/- ===== concrete sample inputs ===== -/

/-- Sample session environment whose download stage fails. -/
def envDownloadFails : Env :=
  { download := Except.error "boom", upload := Except.ok "https://pub/x",
    extract := Except.ok "./temp/a.wav", transcribe := Except.ok "hello",
    analyze := Except.ok [], elapsed := 7 }

/-- Sample session environment whose transcription stage fails. -/
def envTranscribeFails : Env :=
  { download := Except.ok "./temp/v.mp4", upload := Except.ok "https://pub/x",
    extract := Except.ok "./temp/a.wav", transcribe := Except.error "rate limited",
    analyze := Except.ok [], elapsed := 7 }

/-- Sample parsed response missing the `cta` field. -/
def sampleMissingCta : JsObj :=
  [("hook", JsValue.str "h"), ("usp", JsValue.str "u")]

/-- Sample parsed response with the three required fields plus an extra one. -/
def sampleWithExtra : JsObj :=
  [("hook", JsValue.str "h"), ("cta", JsValue.str "c"),
   ("usp", JsValue.str "p"), ("extra", JsValue.bool true)]

/-- Sample downloader environment: the tool exits zero but leaves no
matching file. -/
def dlEnvNoFile : DlEnv := { execResult := Except.ok (), dirFiles := ["zz.mp4"] }

/-- Sample upload environment: the remote store rejects the object. -/
def upEnvRejected : UpEnv :=
  { fileData := Except.ok [1, 2, 3], uploadError := some "denied", now := 5,
    publicUrlOf := fun n => "https://pub/" ++ n }

/- ===== run characterizations of one coordinator session ===== -/

theorem run_empty_url (sid : String) (url : Option String) (env : Env) (fs0 : Fs)
    (rv ra : Bool) (h : jsFalsyStr url = true) :
    analyzeVideo sid url env fs0 rv ra =
      ⟨[evError ⟨sid, "Video URL is required", env.elapsed⟩,
        Event.terminalError ⟨sid, "Video URL is required", env.elapsed⟩], fs0, []⟩ := by
  simp [analyzeVideo, tryPhase, h, cleanupFile]

theorem run_fail_download (sid u m : String) (env : Env) (fs0 : Fs) (rv ra : Bool)
    (hu : u ≠ "") (h1 : env.download = Except.error m) :
    analyzeVideo sid (some u) env fs0 rv ra =
      ⟨[evValidation u, evDownloadStart,
        evError ⟨sid, m, env.elapsed⟩, Event.terminalError ⟨sid, m, env.elapsed⟩],
       fs0, []⟩ := by
  simp [analyzeVideo, tryPhase, jsFalsyStr, hu, h1, cleanupFile]

theorem run_fail_upload (sid u v m : String) (env : Env) (fs0 : Fs) (rv ra : Bool)
    (hu : u ≠ "") (h1 : env.download = Except.ok v) (h2 : env.upload = Except.error m) :
    analyzeVideo sid (some u) env fs0 rv ra =
      ⟨[evValidation u, evDownloadStart, evDownloadDone v, evUploadStart,
        evError ⟨sid, m, env.elapsed⟩, Event.terminalError ⟨sid, m, env.elapsed⟩],
       serviceCleanup (v :: fs0) v rv, [v]⟩ := by
  simp [analyzeVideo, tryPhase, jsFalsyStr, hu, h1, h2, cleanupFile]

theorem run_fail_extract (sid u v pub m : String) (env : Env) (fs0 : Fs) (rv ra : Bool)
    (hu : u ≠ "") (h1 : env.download = Except.ok v) (h2 : env.upload = Except.ok pub)
    (h3 : env.extract = Except.error m) :
    analyzeVideo sid (some u) env fs0 rv ra =
      ⟨[evValidation u, evDownloadStart, evDownloadDone v, evUploadStart,
        evUploadDone pub, evExtractStart,
        evError ⟨sid, m, env.elapsed⟩, Event.terminalError ⟨sid, m, env.elapsed⟩],
       serviceCleanup (v :: fs0) v rv, [v]⟩ := by
  simp [analyzeVideo, tryPhase, jsFalsyStr, hu, h1, h2, h3, cleanupFile]

theorem run_fail_transcribe (sid u v pub a m : String) (env : Env) (fs0 : Fs)
    (rv ra : Bool) (hu : u ≠ "") (h1 : env.download = Except.ok v)
    (h2 : env.upload = Except.ok pub) (h3 : env.extract = Except.ok a)
    (h4 : env.transcribe = Except.error m) :
    analyzeVideo sid (some u) env fs0 rv ra =
      ⟨[evValidation u, evDownloadStart, evDownloadDone v, evUploadStart,
        evUploadDone pub, evExtractStart, evExtractDone a, evTranscribeStart,
        evError ⟨sid, m, env.elapsed⟩, Event.terminalError ⟨sid, m, env.elapsed⟩],
       serviceCleanup (serviceCleanup (a :: v :: fs0) v rv) a ra, [v, a]⟩ := by
  simp [analyzeVideo, tryPhase, jsFalsyStr, hu, h1, h2, h3, h4, cleanupFile]

theorem run_fail_analyze (sid u v pub a t m : String) (env : Env) (fs0 : Fs)
    (rv ra : Bool) (hu : u ≠ "") (h1 : env.download = Except.ok v)
    (h2 : env.upload = Except.ok pub) (h3 : env.extract = Except.ok a)
    (h4 : env.transcribe = Except.ok t) (h5 : env.analyze = Except.error m) :
    analyzeVideo sid (some u) env fs0 rv ra =
      ⟨[evValidation u, evDownloadStart, evDownloadDone v, evUploadStart,
        evUploadDone pub, evExtractStart, evExtractDone a, evTranscribeStart,
        evTranscribeDone t, evAnalysisStart,
        evError ⟨sid, m, env.elapsed⟩, Event.terminalError ⟨sid, m, env.elapsed⟩],
       serviceCleanup (serviceCleanup (a :: v :: fs0) v rv) a ra, [v, a]⟩ := by
  simp [analyzeVideo, tryPhase, jsFalsyStr, hu, h1, h2, h3, h4, h5, cleanupFile]

theorem run_success (sid u v pub a t : String) (an : JsObj) (env : Env) (fs0 : Fs)
    (rv ra : Bool) (hu : u ≠ "") (h1 : env.download = Except.ok v)
    (h2 : env.upload = Except.ok pub) (h3 : env.extract = Except.ok a)
    (h4 : env.transcribe = Except.ok t) (h5 : env.analyze = Except.ok an) :
    analyzeVideo sid (some u) env fs0 rv ra =
      ⟨[evValidation u, evDownloadStart, evDownloadDone v, evUploadStart,
        evUploadDone pub, evExtractStart, evExtractDone a, evTranscribeStart,
        evTranscribeDone t, evAnalysisStart, evAnalysisDone an,
        evComplete (successResult sid u pub t an env.elapsed),
        Event.terminalFinal (successResult sid u pub t an env.elapsed)],
       serviceCleanup (serviceCleanup (a :: v :: fs0) v rv) a ra, [v, a]⟩ := by
  simp [analyzeVideo, tryPhase, jsFalsyStr, hu, h1, h2, h3, h4, h5, cleanupFile,
        successResult]

theorem serviceCleanup_head (v : String) (fs : Fs) :
    serviceCleanup (v :: fs) v false = fs := by
  simp [serviceCleanup, fsRemove, List.contains_cons, List.erase_cons_head]

theorem serviceCleanup_tail (a v : String) (fs : Fs) (h : a ≠ v) :
    serviceCleanup (a :: v :: fs) v false = a :: fs := by
  simp [serviceCleanup, fsRemove, List.contains_cons, List.erase_cons, h]

/-- C1: every session run by `analyzeVideo` writes exactly one terminal
event to its stream — a `final` or an `error` frame, never both — it is
the last write, and no progress or terminal event follows it. -/
theorem coordinator_single_terminal_event (sid : String) (url : Option String)
    (env : Env) (fs0 : Fs) (rv ra : Bool) :
    ∃ pre tEv, (analyzeVideo sid url env fs0 rv ra).events = pre ++ [tEv] ∧
      isTerminal tEv = true ∧ pre.filter isTerminal = [] := by
  by_cases hf : jsFalsyStr url = true
  · rw [run_empty_url sid url env fs0 rv ra hf]
    exact ⟨[evError _], Event.terminalError _, rfl, rfl, by simp [evError, isTerminal]⟩
  · match url with
    | none => simp [jsFalsyStr] at hf
    | some u =>
      have hu : u ≠ "" := by
        intro h
        subst h
        simp [jsFalsyStr] at hf
      cases h1 : env.download with
      | error m =>
        rw [run_fail_download sid u m env fs0 rv ra hu h1]
        exact ⟨[evValidation u, evDownloadStart, evError ⟨sid, m, env.elapsed⟩],
          Event.terminalError ⟨sid, m, env.elapsed⟩, rfl, rfl,
          by simp [evValidation, evDownloadStart, evError, isTerminal]⟩
      | ok v =>
        cases h2 : env.upload with
        | error m =>
          rw [run_fail_upload sid u v m env fs0 rv ra hu h1 h2]
          exact ⟨[evValidation u, evDownloadStart, evDownloadDone v, evUploadStart,
              evError ⟨sid, m, env.elapsed⟩],
            Event.terminalError ⟨sid, m, env.elapsed⟩, rfl, rfl,
            by simp [evValidation, evDownloadStart, evDownloadDone, evUploadStart,
                     evError, isTerminal]⟩
        | ok pub =>
          cases h3 : env.extract with
          | error m =>
            rw [run_fail_extract sid u v pub m env fs0 rv ra hu h1 h2 h3]
            exact ⟨[evValidation u, evDownloadStart, evDownloadDone v, evUploadStart,
                evUploadDone pub, evExtractStart, evError ⟨sid, m, env.elapsed⟩],
              Event.terminalError ⟨sid, m, env.elapsed⟩, rfl, rfl,
              by simp [evValidation, evDownloadStart, evDownloadDone, evUploadStart,
                       evUploadDone, evExtractStart, evError, isTerminal]⟩
          | ok a =>
            cases h4 : env.transcribe with
            | error m =>
              rw [run_fail_transcribe sid u v pub a m env fs0 rv ra hu h1 h2 h3 h4]
              exact ⟨[evValidation u, evDownloadStart, evDownloadDone v, evUploadStart,
                  evUploadDone pub, evExtractStart, evExtractDone a, evTranscribeStart,
                  evError ⟨sid, m, env.elapsed⟩],
                Event.terminalError ⟨sid, m, env.elapsed⟩, rfl, rfl,
                by simp [evValidation, evDownloadStart, evDownloadDone, evUploadStart,
                         evUploadDone, evExtractStart, evExtractDone,
                         evTranscribeStart, evError, isTerminal]⟩
            | ok t =>
              cases h5 : env.analyze with
              | error m =>
                rw [run_fail_analyze sid u v pub a t m env fs0 rv ra hu h1 h2 h3 h4 h5]
                exact ⟨[evValidation u, evDownloadStart, evDownloadDone v, evUploadStart,
                    evUploadDone pub, evExtractStart, evExtractDone a, evTranscribeStart,
                    evTranscribeDone t, evAnalysisStart, evError ⟨sid, m, env.elapsed⟩],
                  Event.terminalError ⟨sid, m, env.elapsed⟩, rfl, rfl,
                  by simp [evValidation, evDownloadStart, evDownloadDone, evUploadStart,
                           evUploadDone, evExtractStart, evExtractDone,
                           evTranscribeStart, evTranscribeDone, evAnalysisStart,
                           evError, isTerminal]⟩
              | ok an =>
                rw [run_success sid u v pub a t an env fs0 rv ra hu h1 h2 h3 h4 h5]
                exact ⟨[evValidation u, evDownloadStart, evDownloadDone v, evUploadStart,
                    evUploadDone pub, evExtractStart, evExtractDone a, evTranscribeStart,
                    evTranscribeDone t, evAnalysisStart, evAnalysisDone an,
                    evComplete (successResult sid u pub t an env.elapsed)],
                  Event.terminalFinal (successResult sid u pub t an env.elapsed), rfl, rfl,
                  by simp [evValidation, evDownloadStart, evDownloadDone, evUploadStart,
                           evUploadDone, evExtractStart, evExtractDone,
                           evTranscribeStart, evTranscribeDone, evAnalysisStart,
                           evAnalysisDone, evComplete, evError, isTerminal]⟩

/-- C2: the five stages run in the fixed order download, upload,
extraction, transcription, analysis; a start progress frame precedes each
stage and a summary progress frame follows each success; the first failing
stage aborts everything after it and yields exactly one `error` progress
frame (carrying the failure message and elapsed time) followed by the
single terminal `error` frame; a full success ends in the `complete`
frame and the terminal `final` frame. Cleanup (modelled separately in the
`fs`/`attempted` components) follows the terminal frame. -/
theorem coordinator_stage_sequence (sid u : String) (env : Env) (fs0 : Fs)
    (rv ra : Bool) (hu : u ≠ "") :
    (∀ m, env.download = Except.error m →
      (analyzeVideo sid (some u) env fs0 rv ra).events =
        [evValidation u, evDownloadStart,
         evError ⟨sid, m, env.elapsed⟩, Event.terminalError ⟨sid, m, env.elapsed⟩])
    ∧ (∀ v m, env.download = Except.ok v → env.upload = Except.error m →
      (analyzeVideo sid (some u) env fs0 rv ra).events =
        [evValidation u, evDownloadStart, evDownloadDone v, evUploadStart,
         evError ⟨sid, m, env.elapsed⟩, Event.terminalError ⟨sid, m, env.elapsed⟩])
    ∧ (∀ v pub m, env.download = Except.ok v → env.upload = Except.ok pub →
      env.extract = Except.error m →
      (analyzeVideo sid (some u) env fs0 rv ra).events =
        [evValidation u, evDownloadStart, evDownloadDone v, evUploadStart,
         evUploadDone pub, evExtractStart,
         evError ⟨sid, m, env.elapsed⟩, Event.terminalError ⟨sid, m, env.elapsed⟩])
    ∧ (∀ v pub a m, env.download = Except.ok v → env.upload = Except.ok pub →
      env.extract = Except.ok a → env.transcribe = Except.error m →
      (analyzeVideo sid (some u) env fs0 rv ra).events =
        [evValidation u, evDownloadStart, evDownloadDone v, evUploadStart,
         evUploadDone pub, evExtractStart, evExtractDone a, evTranscribeStart,
         evError ⟨sid, m, env.elapsed⟩, Event.terminalError ⟨sid, m, env.elapsed⟩])
    ∧ (∀ v pub a t m, env.download = Except.ok v → env.upload = Except.ok pub →
      env.extract = Except.ok a → env.transcribe = Except.ok t →
      env.analyze = Except.error m →
      (analyzeVideo sid (some u) env fs0 rv ra).events =
        [evValidation u, evDownloadStart, evDownloadDone v, evUploadStart,
         evUploadDone pub, evExtractStart, evExtractDone a, evTranscribeStart,
         evTranscribeDone t, evAnalysisStart,
         evError ⟨sid, m, env.elapsed⟩, Event.terminalError ⟨sid, m, env.elapsed⟩])
    ∧ (∀ v pub a t an, env.download = Except.ok v → env.upload = Except.ok pub →
      env.extract = Except.ok a → env.transcribe = Except.ok t →
      env.analyze = Except.ok an →
      (analyzeVideo sid (some u) env fs0 rv ra).events =
        [evValidation u, evDownloadStart, evDownloadDone v, evUploadStart,
         evUploadDone pub, evExtractStart, evExtractDone a, evTranscribeStart,
         evTranscribeDone t, evAnalysisStart, evAnalysisDone an,
         evComplete (successResult sid u pub t an env.elapsed),
         Event.terminalFinal (successResult sid u pub t an env.elapsed)]) := by
  refine ⟨?_, ?_, ?_, ?_, ?_, ?_⟩
  · intro m h1
    rw [run_fail_download sid u m env fs0 rv ra hu h1]
  · intro v m h1 h2
    rw [run_fail_upload sid u v m env fs0 rv ra hu h1 h2]
  · intro v pub m h1 h2 h3
    rw [run_fail_extract sid u v pub m env fs0 rv ra hu h1 h2 h3]
  · intro v pub a m h1 h2 h3 h4
    rw [run_fail_transcribe sid u v pub a m env fs0 rv ra hu h1 h2 h3 h4]
  · intro v pub a t m h1 h2 h3 h4 h5
    rw [run_fail_analyze sid u v pub a t m env fs0 rv ra hu h1 h2 h3 h4 h5]
  · intro v pub a t an h1 h2 h3 h4 h5
    rw [run_success sid u v pub a t an env fs0 rv ra hu h1 h2 h3 h4 h5]

/-- C3: cleanup runs once, after the terminal event: the deletion attempts
are exactly the video temp path if one was recorded and the audio temp
path if one was recorded; the attempts and the stream contents are the
same whether or not either removal fails (a failure of one removal does
not suppress the other attempt, and no failure reaches the caller — the
run's type carries no error). -/
theorem coordinator_cleanup_independent (sid : String) (url : Option String)
    (env : Env) (fs0 : Fs) (rv ra : Bool) :
    (analyzeVideo sid url env fs0 rv ra).attempted =
      Option.toList (tryPhase sid url env fs0).videoPath ++
      Option.toList (tryPhase sid url env fs0).audioPath
    ∧ (analyzeVideo sid url env fs0 rv ra).attempted =
      (analyzeVideo sid url env fs0 false false).attempted
    ∧ (analyzeVideo sid url env fs0 rv ra).events =
      (analyzeVideo sid url env fs0 false false).events := by
  cases htp : tryPhase sid url env fs0 with
  | mk evs fsA vp ap outc =>
    refine ⟨?_, ?_, ?_⟩ <;>
      simp only [analyzeVideo, htp] <;>
      cases vp <;> cases ap <;> cases outc <;> simp [cleanupFile]

/-- C4: when a session fails at stage N (and the removals themselves
succeed), cleanup restores the filesystem to its initial state: every
temp file produced by a completed stage is deleted, and no file of a
stage after the failing one exists, because a stage that never ran (or
failed) created none. Distinctness of the two generated temp names is the
uuid-freshness assumption. -/
theorem coordinator_failed_session_leaves_no_temp_files (sid u : String)
    (env : Env) (fs0 : Fs) (hu : u ≠ "") :
    (∀ m, env.download = Except.error m →
      (analyzeVideo sid (some u) env fs0 false false).fs = fs0)
    ∧ (∀ v m, env.download = Except.ok v → env.upload = Except.error m →
      (analyzeVideo sid (some u) env fs0 false false).fs = fs0)
    ∧ (∀ v pub m, env.download = Except.ok v → env.upload = Except.ok pub →
      env.extract = Except.error m →
      (analyzeVideo sid (some u) env fs0 false false).fs = fs0)
    ∧ (∀ v pub a m, env.download = Except.ok v → env.upload = Except.ok pub →
      env.extract = Except.ok a → env.transcribe = Except.error m → a ≠ v →
      (analyzeVideo sid (some u) env fs0 false false).fs = fs0)
    ∧ (∀ v pub a t m, env.download = Except.ok v → env.upload = Except.ok pub →
      env.extract = Except.ok a → env.transcribe = Except.ok t →
      env.analyze = Except.error m → a ≠ v →
      (analyzeVideo sid (some u) env fs0 false false).fs = fs0) := by
  refine ⟨?_, ?_, ?_, ?_, ?_⟩
  · intro m h1
    rw [run_fail_download sid u m env fs0 false false hu h1]
  · intro v m h1 h2
    rw [run_fail_upload sid u v m env fs0 false false hu h1 h2]
    exact serviceCleanup_head v fs0
  · intro v pub m h1 h2 h3
    rw [run_fail_extract sid u v pub m env fs0 false false hu h1 h2 h3]
    exact serviceCleanup_head v fs0
  · intro v pub a m h1 h2 h3 h4 hav
    rw [run_fail_transcribe sid u v pub a m env fs0 false false hu h1 h2 h3 h4]
    rw [serviceCleanup_tail a v fs0 hav, serviceCleanup_head a fs0]
  · intro v pub a t m h1 h2 h3 h4 h5 hav
    rw [run_fail_analyze sid u v pub a t m env fs0 false false hu h1 h2 h3 h4 h5]
    rw [serviceCleanup_tail a v fs0 hav, serviceCleanup_head a fs0]

/-- C7: a request without a usable url (absent or empty) terminates at
once with the error progress frame and the single terminal `error` frame:
no stage progress frame (`validation`, `download`, `upload`, `extraction`,
`transcription` or `analysis`) appears on the stream, no temp file is
created, and cleanup attempts no deletion. -/
theorem coordinator_rejects_empty_url (sid : String) (url : Option String)
    (env : Env) (fs0 : Fs) (rv ra : Bool) (h : jsFalsyStr url = true) :
    (analyzeVideo sid url env fs0 rv ra).events =
      [evError ⟨sid, "Video URL is required", env.elapsed⟩,
       Event.terminalError ⟨sid, "Video URL is required", env.elapsed⟩]
    ∧ (analyzeVideo sid url env fs0 rv ra).fs = fs0
    ∧ (analyzeVideo sid url env fs0 rv ra).attempted = [] := by
  rw [run_empty_url sid url env fs0 rv ra h]
  exact ⟨rfl, rfl, rfl⟩

theorem validateField_ok_iff (a : JsObj) (f : String) :
    validateField a f = Except.ok () ↔ goodField a f := by
  have h0 : (jsTrim "").length = 0 := by decide
  unfold validateField goodField
  cases hg : getField a f with
  | none => simp
  | some v =>
    cases v with
    | str s =>
      by_cases hs : s = ""
      · subst hs
        simp [h0]
      · by_cases ht : (jsTrim s).length = 0
        · simp [hs, ht]
        · simp [hs, ht]
    | num n => simp
    | bool b => simp
    | null => simp
    | obj l => simp
    | arr l => simp

theorem validateLoop_ok_iff (fs : List String) (a : JsObj) :
    validateLoop fs a = Except.ok () ↔ ∀ f ∈ fs, goodField a f := by
  induction fs with
  | nil => simp [validateLoop]
  | cons f rest ih =>
    simp only [validateLoop]
    cases h : validateField a f with
    | error e =>
      constructor
      · intro hco
        cases hco
      · intro hall
        have hok := (validateField_ok_iff a f).mpr (hall f (by simp))
        rw [h] at hok
        cases hok
    | ok uu =>
      cases uu
      rw [ih]
      constructor
      · intro hrest g hg
        rcases List.mem_cons.mp hg with hg' | hg'
        · subst hg'
          exact (validateField_ok_iff a g).mp h
        · exact hrest g hg'
      · intro hall g hg
        exact hall g (List.mem_cons_of_mem _ hg)

theorem validateAnalysisResponse_ok_iff (a : JsObj) :
    validateAnalysisResponse a = Except.ok () ↔
      goodField a "hook" ∧ goodField a "cta" ∧ goodField a "usp" := by
  rw [validateAnalysisResponse, validateLoop_ok_iff]
  simp [requiredFields]

/-- C5: `analyzeContent` is all-or-nothing over the parsed response: it
returns only when `hook`, `cta` and `usp` are all present, strings, and
non-empty after trimming, and then it returns the parsed object itself;
if any of the three is missing, non-string, or trims to empty, it fails
with an error and returns no partial result. -/
theorem gpt_analysis_all_or_nothing (parsed : JsObj) :
    (∀ r, analyzeContent (Except.ok parsed) = Except.ok r →
      r = parsed ∧ goodField parsed "hook" ∧ goodField parsed "cta" ∧
        goodField parsed "usp")
    ∧ (¬(goodField parsed "hook" ∧ goodField parsed "cta" ∧ goodField parsed "usp") →
      ∃ e, analyzeContent (Except.ok parsed) = Except.error e) := by
  constructor
  · intro r hr
    cases hv : validateAnalysisResponse parsed with
    | error e =>
      simp only [analyzeContent, hv] at hr
      exact Except.noConfusion hr
    | ok uu =>
      cases uu
      simp only [analyzeContent, hv, Except.ok.injEq] at hr
      subst hr
      exact ⟨rfl, (validateAnalysisResponse_ok_iff parsed).mp hv⟩
  · intro hbad
    cases hv : validateAnalysisResponse parsed with
    | ok uu =>
      cases uu
      exact absurd ((validateAnalysisResponse_ok_iff parsed).mp hv) hbad
    | error e =>
      refine ⟨e, ?_⟩
      simp only [analyzeContent, hv]

/-- C6: the temperature override of `generateAlternativeAnalysis` is
scoped to that one invocation: afterwards the instance carries its
original `temperature` (whatever the remote call did, including failing),
`model` and `maxTokens` are untouched, the alternate call itself was
issued at the override temperature, and a subsequent `analyzeContent`
call issues its request at the original temperature. -/
theorem gpt_temperature_override_scoped (svc : GPTService)
    (oracle : ChatRequest → Except String JsObj) (temperature : Rat) :
    ((generateAlternativeAnalysis svc oracle temperature).2.1.temperature =
      svc.temperature)
    ∧ ((generateAlternativeAnalysis svc oracle temperature).2.1.model = svc.model)
    ∧ ((generateAlternativeAnalysis svc oracle temperature).2.1.maxTokens =
      svc.maxTokens)
    ∧ ((generateAlternativeAnalysis svc oracle temperature).2.2.temperature =
      temperature)
    ∧ ((analyzeContentSvc (generateAlternativeAnalysis svc oracle temperature).2.1
        oracle).2.2.temperature = svc.temperature) := by
  refine ⟨rfl, rfl, rfl, rfl, rfl⟩

/-- C8: `downloadVideo` invokes the external tool with
`--format best[ext=mp4]/best` (best available, mp4-container preferred)
and `--no-playlist` (no playlist expansion); it fails when the tool exits
non-zero, and also when the tool exits zero but no file in the temp
directory starts with the generated unique identifier; on success it
returns the path of the matched file. -/
theorem downloader_contract (tempDir videoId url : String) (env : DlEnv) :
    ("--no-playlist" ∈ (downloadVideo tempDir videoId url env).2
      ∧ List.IsInfix ["--format", "best[ext=mp4]/best"]
          (downloadVideo tempDir videoId url env).2)
    ∧ (∀ e, env.execResult = Except.error e →
      (downloadVideo tempDir videoId url env).1 =
        Except.error ("Failed to download video: " ++ e))
    ∧ (env.execResult = Except.ok () →
      (∀ f ∈ env.dirFiles, jsStartsWith f videoId = false) →
      (downloadVideo tempDir videoId url env).1 =
        Except.error "Failed to download video: Downloaded file not found")
    ∧ (∀ f, env.execResult = Except.ok () →
      env.dirFiles.find? (fun g => jsStartsWith g videoId) = some f →
      (downloadVideo tempDir videoId url env).1 =
        Except.ok (tempDir ++ "/" ++ f)) := by
  refine ⟨⟨?_, ?_⟩, ?_, ?_, ?_⟩
  · cases he : env.execResult with
    | error e => simp [downloadVideo, he]
    | ok uu =>
      cases uu
      cases hf : env.dirFiles.find? (fun g => jsStartsWith g videoId) with
      | none => simp [downloadVideo, he, hf]
      | some f => simp [downloadVideo, he, hf]
  · cases he : env.execResult with
    | error e =>
      exact ⟨[url, "--output", tempDir ++ "/" ++ videoId ++ ".%(ext)s"],
        ["--no-playlist"], by simp [downloadVideo, he]⟩
    | ok uu =>
      cases uu
      cases hf : env.dirFiles.find? (fun g => jsStartsWith g videoId) with
      | none =>
        exact ⟨[url, "--output", tempDir ++ "/" ++ videoId ++ ".%(ext)s"],
          ["--no-playlist"], by simp [downloadVideo, he, hf]⟩
      | some f =>
        exact ⟨[url, "--output", tempDir ++ "/" ++ videoId ++ ".%(ext)s"],
          ["--no-playlist"], by simp [downloadVideo, he, hf]⟩
  · intro e he
    simp [downloadVideo, he]
  · intro he hnone
    have hf : env.dirFiles.find? (fun g => jsStartsWith g videoId) = none := by
      rw [List.find?_eq_none]
      intro x hx
      simp [hnone x hx]
    simp [downloadVideo, he, hf]
  · intro f he hf
    simp [downloadVideo, he, hf]

/-- C9: `uploadToSupabase` reads the whole file, names the remote object
`{sessionId}_{Date.now()}.mp4`, uploads it with content type `video/mp4`
and `upsert: false` (a name collision fails instead of overwriting), and
returns the object's public URL on success; a remote rejection becomes a
`Supabase upload failed` error. -/
theorem upload_contract (bucketName sessionId videoPath : String) (env : UpEnv) :
    (∀ e, env.fileData = Except.error e →
      uploadToSupabase bucketName sessionId videoPath env = (Except.error e, none))
    ∧ (∀ buf m, env.fileData = Except.ok buf → env.uploadError = some m →
      uploadToSupabase bucketName sessionId videoPath env =
        (Except.error ("Supabase upload failed: " ++ m),
         some ⟨bucketName, sessionId ++ "_" ++ toString env.now ++ ".mp4",
               buf, "video/mp4", false⟩))
    ∧ (∀ buf, env.fileData = Except.ok buf → env.uploadError = none →
      uploadToSupabase bucketName sessionId videoPath env =
        (Except.ok (env.publicUrlOf
           (sessionId ++ "_" ++ toString env.now ++ ".mp4")),
         some ⟨bucketName, sessionId ++ "_" ++ toString env.now ++ ".mp4",
               buf, "video/mp4", false⟩)) := by
  refine ⟨?_, ?_, ?_⟩
  · intro e he
    simp [uploadToSupabase, he]
  · intro buf m hb hm
    simp [uploadToSupabase, hb, hm]
  · intro buf hb hm
    simp [uploadToSupabase, hb, hm]

/-- C10: the response validation looks only at `hook`, `cta` and `usp`:
any parsed object whose three fields are non-empty strings passes
validation whatever other fields it has, `analyzeContent` returns the
full parsed object (extra fields included), and on a fully successful
session that object is the `analysis` of the terminal result envelope. -/
theorem analysis_extra_fields_pass_through (parsed : JsObj)
    (h1 : goodField parsed "hook") (h2 : goodField parsed "cta")
    (h3 : goodField parsed "usp") :
    validateAnalysisResponse parsed = Except.ok ()
    ∧ analyzeContent (Except.ok parsed) = Except.ok parsed
    ∧ ∀ sid u v pub a t env fs0 rv ra, u ≠ "" →
        env.download = Except.ok v → env.upload = Except.ok pub →
        env.extract = Except.ok a → env.transcribe = Except.ok t →
        env.analyze = Except.ok parsed →
        ∃ pre r, (analyzeVideo sid (some u) env fs0 rv ra).events =
          pre ++ [Event.terminalFinal r] ∧ r.analysis = parsed := by
  have hv : validateAnalysisResponse parsed = Except.ok () :=
    (validateAnalysisResponse_ok_iff parsed).mpr ⟨h1, h2, h3⟩
  refine ⟨hv, by simp only [analyzeContent, hv], ?_⟩
  intro sid u v pub a t env fs0 rv ra hu hd hup hex htr han
  refine ⟨[evValidation u, evDownloadStart, evDownloadDone v, evUploadStart,
      evUploadDone pub, evExtractStart, evExtractDone a, evTranscribeStart,
      evTranscribeDone t, evAnalysisStart, evAnalysisDone parsed,
      evComplete (successResult sid u pub t parsed env.elapsed)],
    successResult sid u pub t parsed env.elapsed, ?_, rfl⟩
  rw [run_success sid u v pub a t parsed env fs0 rv ra hu hd hup hex htr han]
  rfl

/- ===== witnesses at concrete inputs ===== -/

theorem coordinator_stage_sequence_witness :
    (analyzeVideo "s" (some "x") envDownloadFails [] false false).events =
      [evValidation "x", evDownloadStart,
       evError ⟨"s", "boom", 7⟩, Event.terminalError ⟨"s", "boom", 7⟩] :=
  (coordinator_stage_sequence "s" "x" envDownloadFails [] false false
    (by decide)).1 "boom" rfl

theorem coordinator_failed_session_leaves_no_temp_files_witness :
    (analyzeVideo "s" (some "x") envTranscribeFails [] false false).fs = [] :=
  (coordinator_failed_session_leaves_no_temp_files "s" "x" envTranscribeFails []
    (by decide)).2.2.2.1 "./temp/v.mp4" "https://pub/x" "./temp/a.wav"
    "rate limited" rfl rfl rfl rfl (by decide)

theorem gpt_analysis_all_or_nothing_witness :
    ∃ e, analyzeContent (Except.ok sampleMissingCta) = Except.error e := by
  refine (gpt_analysis_all_or_nothing sampleMissingCta).2 ?_
  rintro ⟨-, hc, -⟩
  obtain ⟨s, hs, -⟩ : ∃ s, getField sampleMissingCta "cta" = some (JsValue.str s) ∧
      (jsTrim s).length ≠ 0 := hc
  have hn : getField sampleMissingCta "cta" = none := rfl
  rw [hn] at hs
  cases hs

theorem coordinator_rejects_empty_url_witness :
    (analyzeVideo "s" (some "") envDownloadFails [] false false).events =
      [evError ⟨"s", "Video URL is required", 7⟩,
       Event.terminalError ⟨"s", "Video URL is required", 7⟩] :=
  (coordinator_rejects_empty_url "s" (some "") envDownloadFails [] false false
    (by decide)).1

theorem downloader_contract_witness :
    (downloadVideo "./temp" "abc" "https://youtu.be/x" dlEnvNoFile).1 =
      Except.error "Failed to download video: Downloaded file not found" :=
  (downloader_contract "./temp" "abc" "https://youtu.be/x" dlEnvNoFile).2.2.1 rfl
    (by decide)

theorem upload_contract_witness :
    uploadToSupabase "content" "sid" "./temp/v.mp4" upEnvRejected =
      (Except.error ("Supabase upload failed: " ++ "denied"),
       some ⟨"content", "sid" ++ "_" ++ toString (5 : Nat) ++ ".mp4",
             [1, 2, 3], "video/mp4", false⟩) :=
  (upload_contract "content" "sid" "./temp/v.mp4" upEnvRejected).2.1 [1, 2, 3]
    "denied" rfl rfl

theorem analysis_extra_fields_pass_through_witness :
    analyzeContent (Except.ok sampleWithExtra) = Except.ok sampleWithExtra := by
  have g1 : goodField sampleWithExtra "hook" := ⟨"h", rfl, by decide⟩
  have g2 : goodField sampleWithExtra "cta" := ⟨"c", rfl, by decide⟩
  have g3 : goodField sampleWithExtra "usp" := ⟨"p", rfl, by decide⟩
  exact (analysis_extra_fields_pass_through sampleWithExtra g1 g2 g3).2.1
